import Mathlib

/-!
Shallow embedding of the order-readiness payment gate: the `POST` route handler
that validates a pay-on-pickup order and initiates a hosted checkout with the
payment gateway. External collaborators (order store, identity provider,
payment initiator) are injected as functions; each call either returns a
result envelope or throws, mirroring the `try/catch` of the handler.
-/

namespace GabPayment

/-- Result envelope shared by all external collaborators: a success flag, an
optional payload and an optional error message (the `{success, data?, error?}`
objects returned by the TypeScript service clients). -/
structure ServiceResponse (α : Type) where
  success : Bool
  data : Option α
  error : Option String
  deriving DecidableEq

/-- JavaScript `x || d` for an optional string `x`: the default is taken when
the field is absent or is the empty string (both falsy). -/
def jsOr : Option String → String → String
  | some s, d => if s = "" then d else s
  | none, d => d

/-- Order lifecycle stages of `OrderStatus` from `@/lib/types`; the variants
are the ones enumerated by the owner dashboard page. The handler only compares
for equality with `READY`. -/
inductive OrderStatus
  | PENDING
  | PICKED_UP
  | CONFIRMED
  | IN_PROGRESS
  | READY
  | DELIVERED
  | CANCELLED
  deriving DecidableEq

/-- Modelled from the spec: `PaymentMethod` is declared in `@/lib/types`, which
is not among the provided source files; the spec lists pay-online,
pay-on-pickup and pay-by-transfer as the enumerated methods. The handler only
compares for equality with `PAY_ON_PICKUP`. -/
inductive PaymentMethod
  | PAY_ONLINE
  | PAY_ON_PICKUP
  | PAY_BY_TRANSFER
  deriving DecidableEq

/-- The duck-typed `phone` field of a customer profile: a bare string, a
structured value with an optional `number` field, or absent (null/undefined). -/
inductive Phone
  | str (s : String)
  | obj (number : Option String)
  | undef
  deriving DecidableEq

/-- Customer profile as returned by `authService.getUserProfile`. -/
structure CustomerProfile where
  email : String
  firstName : String
  lastName : String
  phone : Phone
  deriving DecidableEq

/-- The order fields the handler reads (`customerId`, `status`,
`paymentMethod`, `finalAmount`); the remaining fields of the `Order` record
are never read on this path. -/
structure Order where
  customerId : String
  status : OrderStatus
  paymentMethod : PaymentMethod
  finalAmount : Nat
  deriving DecidableEq

/-- Payload of a successful `getOrderById`: a `{order}` wrapper. -/
structure OrderData where
  order : Order
  deriving DecidableEq

/-- The `metadata` record of the payment initiation request. -/
structure PaymentMetadata where
  orderId : String
  customerId : String
  customerName : String
  phoneNumber : String
  paymentType : String
  deriving DecidableEq

/-- The payment initiation request (`paymentData` in the handler). -/
structure PaymentData where
  email : String
  amount : Nat
  currency : String
  metadata : PaymentMetadata
  callback_url : String
  deriving DecidableEq

/-- Payload of the payment initiator result: a checkout URL (possibly absent
or empty) and an opaque reference (possibly absent). -/
structure PaymentInitData where
  authorizationUrl : Option String
  reference : Option String
  deriving DecidableEq

/-- Payload of the 200 response: the checkout URL and reference passed along. -/
structure SuccessData where
  authorizationUrl : String
  reference : Option String
  deriving DecidableEq

/-- A `NextResponse.json(body, {status})` value: the JSON body fields together
with the HTTP status code (200 when no explicit status is given). -/
structure ApiResponse where
  success : Bool
  error : Option String
  data : Option SuccessData
  status : Nat
  deriving DecidableEq

/-- The parsed JSON request body `{orderId, customerId}`; either field may be
absent (and an absent or empty field is falsy). -/
structure RequestBody where
  orderId : Option String
  customerId : Option String
  deriving DecidableEq

/-- The collaborators visible to the handler, injected as functions; each call
either returns a result envelope (`Except.ok`) or throws (`Except.error`),
matching the `try/catch` semantics of the handler. `appUrl` is the
`NEXT_PUBLIC_APP_URL` environment variable, absent when unset. -/
structure Env where
  getOrderById : String → Except String (ServiceResponse OrderData)
  getUserProfile : String → Except String (ServiceResponse CustomerProfile)
  initializePayment : PaymentData → Except String (ServiceResponse PaymentInitData)
  appUrl : Option String

/-- External calls the handler can make, in order of appearance. The
`updateOrder` constructor is included so the frame property "no order
mutation / no status transition" is expressible: the handler never emits it. -/
inductive CallEvent
  | getOrder (id : String)
  | getProfile (id : String)
  | initPayment (req : PaymentData)
  | updateOrder (id : String) (status : OrderStatus)
  deriving DecidableEq

/-- An error response body with its HTTP status:
`NextResponse.json({success:false, error}, {status})`. -/
def errResp (msg : String) (code : Nat) : ApiResponse :=
  { success := false, error := some msg, data := none, status := code }

/-- Template-literal rendering of a possibly-unset environment variable
(an unset variable interpolates as the text "undefined"). -/
def envString : Option String → String
  | some s => s
  | none => "undefined"

/-- Phone normalization:
`typeof customer.phone` equal to string gives the phone itself, else the optional
`number` field of the phone, defaulted to the empty string when falsy. -/
def normalizePhone : Phone → String
  | Phone.str s => s
  | Phone.obj number => jsOr number ""
  | Phone.undef => ""

/-- The `paymentData` request record built by the handler: payee email, the
final amount of the order, fixed currency "NGN", metadata (ids, display name,
normalized phone, fixed payment-type tag) and the callback URL derived from
the configured application URL. -/
def mkPaymentData (appUrl : Option String) (orderId customerId : String)
    (order : Order) (customer : CustomerProfile) : PaymentData :=
  { email := customer.email
    amount := order.finalAmount
    currency := "NGN"
    metadata :=
      { orderId := orderId
        customerId := customerId
        customerName := customer.firstName ++ " " ++ customer.lastName
        phoneNumber := normalizePhone customer.phone
        paymentType := "pay_on_pickup" }
    callback_url := envString appUrl ++ "/payment/callback" }

/-- The tail of the handler examining the result of the payment initiator: success
with a truthy `authorizationUrl` yields the 200 pass-through response; failure
or an incomplete success payload yields a 500 with the error of the initiator
message when available. -/
def payOutcome (paymentResult : ServiceResponse PaymentInitData) : ApiResponse :=
  match paymentResult.success, paymentResult.data with
  | true, some pd =>
    match pd.authorizationUrl with
    | some url =>
      if url ≠ "" then
        { success := true, error := none
          data := some { authorizationUrl := url, reference := pd.reference }
          status := 200 }
      else errResp (jsOr paymentResult.error "Failed to initialize payment") 500
    | none => errResp (jsOr paymentResult.error "Failed to initialize payment") 500
  | _, _ => errResp (jsOr paymentResult.error "Failed to initialize payment") 500

/-- The guarded gate after both identifiers are validated: order lookup,
ownership check, status check, payment-method check, profile lookup, then the
payment initiation. Returns the response (or the thrown value) paired with the
trace of collaborator calls made, in order. -/
def runGate (env : Env) (orderId customerId : String) :
    Except String ApiResponse × List CallEvent :=
  match env.getOrderById orderId with
  | Except.error e => (Except.error e, [CallEvent.getOrder orderId])
  | Except.ok orderResponse =>
    match orderResponse.success, orderResponse.data with
    | true, some od =>
      if od.order.customerId ≠ customerId then
        (Except.ok (errResp "Unauthorized access to order" 403),
          [CallEvent.getOrder orderId])
      else if od.order.status ≠ OrderStatus.READY then
        (Except.ok (errResp "Order is not ready for pickup" 400),
          [CallEvent.getOrder orderId])
      else if od.order.paymentMethod ≠ PaymentMethod.PAY_ON_PICKUP then
        (Except.ok (errResp "Order is not set for pay on pickup" 400),
          [CallEvent.getOrder orderId])
      else
        match env.getUserProfile customerId with
        | Except.error e =>
          (Except.error e,
            [CallEvent.getOrder orderId, CallEvent.getProfile customerId])
        | Except.ok customerResponse =>
          match customerResponse.success, customerResponse.data with
          | true, some customer =>
            (match env.initializePayment
                (mkPaymentData env.appUrl orderId customerId od.order customer) with
             | Except.error e => Except.error e
             | Except.ok paymentResult => Except.ok (payOutcome paymentResult),
             [CallEvent.getOrder orderId, CallEvent.getProfile customerId,
              CallEvent.initPayment
                (mkPaymentData env.appUrl orderId customerId od.order customer)])
          | _, _ =>
            (Except.ok (errResp "Customer not found" 404),
              [CallEvent.getOrder orderId, CallEvent.getProfile customerId])
    | _, _ =>
      (Except.ok (errResp (jsOr orderResponse.error "Order not found") 404),
        [CallEvent.getOrder orderId])

/-- The body of the `try` block of the handler: the parsed JSON body (or the value
thrown by the parse), the presence check on both identifiers, then the gate. -/
def POSTtry (env : Env) (body : Except String RequestBody) :
    Except String ApiResponse × List CallEvent :=
  match body with
  | Except.error e => (Except.error e, [])
  | Except.ok b =>
    match b.orderId, b.customerId with
    | some orderId, some customerId =>
      if orderId = "" ∨ customerId = "" then
        (Except.ok (errResp "Order ID and Customer ID are required" 400), [])
      else
        runGate env orderId customerId
    | _, _ =>
      (Except.ok (errResp "Order ID and Customer ID are required" 400), [])

/-- The exported route handler: the `try` body with the `catch` wrapper that
converts any thrown value into a generic 500 response. -/
def POST (env : Env) (body : Except String RequestBody) : ApiResponse :=
  match (POSTtry env body).1 with
  | Except.ok r => r
  | Except.error _ => errResp "Internal server error" 500

/-- The collaborator calls made by one invocation, in order. -/
def callTrace (env : Env) (body : Except String RequestBody) : List CallEvent :=
  (POSTtry env body).2

/-- Number of payment-initiation calls in a trace. -/
def countInit : List CallEvent → Nat
  | [] => 0
  | CallEvent.initPayment _ :: rest => countInit rest + 1
  | _ :: rest => countInit rest

/-- Number of order lookups in a trace. -/
def countOrderCalls : List CallEvent → Nat
  | [] => 0
  | CallEvent.getOrder _ :: rest => countOrderCalls rest + 1
  | _ :: rest => countOrderCalls rest

/-- Number of profile lookups in a trace. -/
def countProfileCalls : List CallEvent → Nat
  | [] => 0
  | CallEvent.getProfile _ :: rest => countProfileCalls rest + 1
  | _ :: rest => countProfileCalls rest

/-- Number of order-mutation calls in a trace. -/
def countUpdates : List CallEvent → Nat
  | [] => 0
  | CallEvent.updateOrder _ _ :: rest => countUpdates rest + 1
  | _ :: rest => countUpdates rest

/-! Concrete fixtures used to instantiate the universally quantified theorems. -/

/-- A ready, pay-on-pickup order owned by customer C1, priced 500000 kobo. -/
def order1 : Order :=
  { customerId := "C1", status := OrderStatus.READY
    paymentMethod := PaymentMethod.PAY_ON_PICKUP, finalAmount := 500000 }

/-- The profile of customer C1, with a bare-string phone. -/
def cust1 : CustomerProfile :=
  { email := "a@b.com", firstName := "Ada", lastName := "Lovelace"
    phone := Phone.str "08012345678" }

/-- Happy-path world: the order resolves to `order1`, the profile to `cust1`,
and the payment initiator answers success with a checkout URL and reference. -/
def env1 : Env :=
  { getOrderById := fun _ =>
      Except.ok { success := true, data := some { order := order1 }, error := none }
    getUserProfile := fun _ =>
      Except.ok { success := true, data := some cust1, error := none }
    initializePayment := fun _ =>
      Except.ok { success := true
                  data := some { authorizationUrl := some "https://pay.example/x"
                                 reference := some "REF123" }
                  error := none }
    appUrl := some "https://app.example" }

/-- An order owned by a different customer (C2), and not even ready. -/
def orderOther : Order :=
  { customerId := "C2", status := OrderStatus.PENDING
    paymentMethod := PaymentMethod.PAY_ONLINE, finalAmount := 250 }

/-- World whose order store returns `orderOther` for every id. -/
def envOther : Env :=
  { env1 with getOrderById := fun _ =>
      Except.ok { success := true, data := some { order := orderOther }, error := none } }

/-- An order owned by C1 that is still in progress. -/
def orderNotReady : Order :=
  { customerId := "C1", status := OrderStatus.IN_PROGRESS
    paymentMethod := PaymentMethod.PAY_ON_PICKUP, finalAmount := 250 }

/-- World whose order store returns `orderNotReady`. -/
def envNotReady : Env :=
  { env1 with getOrderById := fun _ =>
      Except.ok { success := true, data := some { order := orderNotReady }, error := none } }

/-- A ready order owned by C1 that is set for online payment. -/
def orderOnline : Order :=
  { customerId := "C1", status := OrderStatus.READY
    paymentMethod := PaymentMethod.PAY_ONLINE, finalAmount := 250 }

/-- World whose order store returns `orderOnline`. -/
def envOnline : Env :=
  { env1 with getOrderById := fun _ =>
      Except.ok { success := true, data := some { order := orderOnline }, error := none } }

/-- World whose order store reports a failure with its own message. -/
def envNoOrder : Env :=
  { env1 with getOrderById := fun _ =>
      Except.ok { success := false, data := none, error := some "db offline" } }

/-- World whose identity provider cannot resolve any profile. -/
def envNoCustomer : Env :=
  { env1 with getUserProfile := fun _ =>
      Except.ok { success := false, data := none, error := none } }

/-- World whose payment initiator reports success but omits the checkout URL. -/
def envPayNoUrl : Env :=
  { env1 with initializePayment := fun _ =>
      Except.ok { success := true
                  data := some { authorizationUrl := none, reference := some "REF9" }
                  error := some "gateway glitch" } }

/-- World whose order lookup throws (an unexpected fault inside the gate). -/
def envThrows : Env :=
  { env1 with getOrderById := fun _ => Except.error "boom" }

/-- A well-formed request body for order O1 by customer C1. -/
def bodyOk : Except String RequestBody :=
  Except.ok { orderId := some "O1", customerId := some "C1" }

/-- A request body missing both identifiers. -/
def bodyMissing : Except String RequestBody :=
  Except.ok { orderId := none, customerId := none }

/-- Well-formedness of a response: either the 200 success shape or a failure
shape with a message, no payload, and one of the documented error codes. -/
def goodResp (r : ApiResponse) : Prop :=
  (r.success = true ∧ r.status = 200 ∧ r.error = none ∧ (r.data).isSome = true)
  ∨ (r.success = false ∧ r.data = none ∧ (∃ m, r.error = some m)
      ∧ (r.status = 400 ∨ r.status = 403 ∨ r.status = 404 ∨ r.status = 500))

/-! Reduction lemmas following the branches of the handler. -/

lemma goodResp_err (m : String) (c : Nat)
    (h : c = 400 ∨ c = 403 ∨ c = 404 ∨ c = 500) : goodResp (errResp m c) :=
  Or.inr ⟨rfl, rfl, ⟨m, rfl⟩, h⟩

lemma POSTtry_ok_ids (env : Env) (oid cid : String) (hoid : oid ≠ "") (hcid : cid ≠ "") :
    POSTtry env (Except.ok { orderId := some oid, customerId := some cid }) =
      runGate env oid cid := by
  unfold POSTtry
  simp [hoid, hcid]

lemma runGate_orderThrow (env : Env) (oid cid e : String)
    (h : env.getOrderById oid = Except.error e) :
    runGate env oid cid = (Except.error e, [CallEvent.getOrder oid]) := by
  unfold runGate
  rw [h]

lemma runGate_orderMissing (env : Env) (oid cid : String) (res : ServiceResponse OrderData)
    (horder : env.getOrderById oid = Except.ok res)
    (hfail : res.success = false ∨ res.data = none) :
    runGate env oid cid =
      (Except.ok (errResp (jsOr res.error "Order not found") 404),
        [CallEvent.getOrder oid]) := by
  unfold runGate
  rw [horder]
  rcases res with ⟨s, d, e⟩
  rcases hfail with h | h
  · subst h
    cases d <;> rfl
  · simp only at h
    subst h
    cases s <;> rfl

lemma runGate_unauthorized (env : Env) (oid cid : String) (order : Order)
    (oerr : Option String)
    (horder : env.getOrderById oid =
      Except.ok { success := true, data := some { order := order }, error := oerr })
    (hown : order.customerId ≠ cid) :
    runGate env oid cid =
      (Except.ok (errResp "Unauthorized access to order" 403),
        [CallEvent.getOrder oid]) := by
  unfold runGate
  rw [horder]
  simp [hown]

lemma runGate_notReady (env : Env) (oid cid : String) (order : Order)
    (oerr : Option String)
    (horder : env.getOrderById oid =
      Except.ok { success := true, data := some { order := order }, error := oerr })
    (hown : order.customerId = cid)
    (hst : order.status ≠ OrderStatus.READY) :
    runGate env oid cid =
      (Except.ok (errResp "Order is not ready for pickup" 400),
        [CallEvent.getOrder oid]) := by
  unfold runGate
  rw [horder]
  simp [hown, hst]

lemma runGate_wrongMethod (env : Env) (oid cid : String) (order : Order)
    (oerr : Option String)
    (horder : env.getOrderById oid =
      Except.ok { success := true, data := some { order := order }, error := oerr })
    (hown : order.customerId = cid)
    (hst : order.status = OrderStatus.READY)
    (hpm : order.paymentMethod ≠ PaymentMethod.PAY_ON_PICKUP) :
    runGate env oid cid =
      (Except.ok (errResp "Order is not set for pay on pickup" 400),
        [CallEvent.getOrder oid]) := by
  unfold runGate
  rw [horder]
  simp [hown, hst, hpm]

lemma runGate_custThrow (env : Env) (oid cid : String) (order : Order)
    (oerr : Option String) (e : String)
    (horder : env.getOrderById oid =
      Except.ok { success := true, data := some { order := order }, error := oerr })
    (hown : order.customerId = cid)
    (hst : order.status = OrderStatus.READY)
    (hpm : order.paymentMethod = PaymentMethod.PAY_ON_PICKUP)
    (hcust : env.getUserProfile cid = Except.error e) :
    runGate env oid cid =
      (Except.error e,
        [CallEvent.getOrder oid, CallEvent.getProfile cid]) := by
  unfold runGate
  rw [horder]
  simp [hown, hst, hpm, hcust]

lemma runGate_custMissing (env : Env) (oid cid : String) (order : Order)
    (oerr : Option String) (cres : ServiceResponse CustomerProfile)
    (horder : env.getOrderById oid =
      Except.ok { success := true, data := some { order := order }, error := oerr })
    (hown : order.customerId = cid)
    (hst : order.status = OrderStatus.READY)
    (hpm : order.paymentMethod = PaymentMethod.PAY_ON_PICKUP)
    (hcust : env.getUserProfile cid = Except.ok cres)
    (hfail : cres.success = false ∨ cres.data = none) :
    runGate env oid cid =
      (Except.ok (errResp "Customer not found" 404),
        [CallEvent.getOrder oid, CallEvent.getProfile cid]) := by
  unfold runGate
  rw [horder]
  simp only [hown, hst, hpm]
  rcases cres with ⟨s, d, e⟩
  rcases hfail with h | h
  · subst h
    simp [hcust]
  · simp only at h
    subst h
    simp [hcust]

lemma runGate_customer (env : Env) (oid cid : String) (order : Order)
    (oerr cerr : Option String) (customer : CustomerProfile)
    (horder : env.getOrderById oid =
      Except.ok { success := true, data := some { order := order }, error := oerr })
    (hown : order.customerId = cid)
    (hst : order.status = OrderStatus.READY)
    (hpm : order.paymentMethod = PaymentMethod.PAY_ON_PICKUP)
    (hcust : env.getUserProfile cid =
      Except.ok { success := true, data := some customer, error := cerr }) :
    runGate env oid cid =
      (match env.initializePayment (mkPaymentData env.appUrl oid cid order customer) with
       | Except.error e => Except.error e
       | Except.ok paymentResult => Except.ok (payOutcome paymentResult),
       [CallEvent.getOrder oid, CallEvent.getProfile cid,
        CallEvent.initPayment (mkPaymentData env.appUrl oid cid order customer)]) := by
  unfold runGate
  rw [horder]
  simp [hown, hst, hpm, hcust]

lemma payOutcome_success (pr : ServiceResponse PaymentInitData)
    (pd : PaymentInitData) (url : String)
    (hs : pr.success = true) (hd : pr.data = some pd)
    (hu : pd.authorizationUrl = some url) (hne : url ≠ "") :
    payOutcome pr =
      { success := true, error := none
        data := some { authorizationUrl := url, reference := pd.reference }
        status := 200 } := by
  rcases pr with ⟨s, d, e⟩
  rcases pd with ⟨au, r⟩
  simp only at hs hd hu
  subst hs; subst hd; subst hu
  unfold payOutcome
  simp [hne]

lemma payOutcome_fail (pr : ServiceResponse PaymentInitData)
    (h : pr.success = false ∨ pr.data = none
      ∨ ∃ pd, pr.data = some pd
          ∧ (pd.authorizationUrl = none ∨ pd.authorizationUrl = some "")) :
    payOutcome pr = errResp (jsOr pr.error "Failed to initialize payment") 500 := by
  rcases pr with ⟨s, d, e⟩
  rcases h with h | h | ⟨pd, hd, hu⟩
  · simp only at h
    subst h
    cases d <;> rfl
  · simp only at h
    subst h
    cases s <;> rfl
  · simp only at hd
    subst hd
    rcases pd with ⟨au, r⟩
    simp only at hu
    rcases hu with hu | hu <;> subst hu <;> cases s <;> simp [payOutcome, errResp]

lemma payOutcome_good (pr : ServiceResponse PaymentInitData) :
    goodResp (payOutcome pr) := by
  rcases pr with ⟨s, d, e⟩
  cases s
  · rw [payOutcome_fail _ (Or.inl rfl)]
    exact goodResp_err _ _ (by simp)
  · cases d with
    | none =>
      rw [payOutcome_fail _ (Or.inr (Or.inl rfl))]
      exact goodResp_err _ _ (by simp)
    | some pd =>
      rcases pd with ⟨au, r⟩
      cases au with
      | none =>
        rw [payOutcome_fail _ (Or.inr (Or.inr ⟨⟨none, r⟩, rfl, Or.inl rfl⟩))]
        exact goodResp_err _ _ (by simp)
      | some url =>
        by_cases h : url = ""
        · subst h
          rw [payOutcome_fail _ (Or.inr (Or.inr ⟨⟨some "", r⟩, rfl, Or.inr rfl⟩))]
          exact goodResp_err _ _ (by simp)
        · rw [payOutcome_success ⟨true, some ⟨some url, r⟩, e⟩ ⟨some url, r⟩ url rfl rfl rfl h]
          left
          simp

/-- Exhaustive case analysis of the gate: every returned response is
well-formed, the call trace is a prefix of lookup-lookup-initiation, and a
successful response implies the payment-initiation call happened. -/
lemma runGate_shape (env : Env) (oid cid : String) :
    (∀ r, (runGate env oid cid).1 = Except.ok r → goodResp r)
    ∧ ((runGate env oid cid).2 = [CallEvent.getOrder oid]
        ∨ (runGate env oid cid).2 = [CallEvent.getOrder oid, CallEvent.getProfile cid]
        ∨ ∃ req, (runGate env oid cid).2 =
            [CallEvent.getOrder oid, CallEvent.getProfile cid, CallEvent.initPayment req])
    ∧ (∀ r, (runGate env oid cid).1 = Except.ok r → r.success = true →
        ∃ req, (runGate env oid cid).2 =
          [CallEvent.getOrder oid, CallEvent.getProfile cid, CallEvent.initPayment req]) := by
  cases hO : env.getOrderById oid with
  | error e =>
    rw [runGate_orderThrow env oid cid e hO]
    refine ⟨?_, Or.inl rfl, ?_⟩
    · intro r h; simp at h
    · intro r h; simp at h
  | ok ores =>
    rcases ores with ⟨s, d, oe⟩
    cases s with
    | false =>
      rw [runGate_orderMissing env oid cid ⟨false, d, oe⟩ hO (Or.inl rfl)]
      refine ⟨?_, Or.inl rfl, ?_⟩
      · intro r h
        obtain rfl := Except.ok.inj h
        exact goodResp_err _ _ (by simp)
      · intro r h hs
        obtain rfl := Except.ok.inj h
        simp [errResp] at hs
    | true =>
      cases d with
      | none =>
        rw [runGate_orderMissing env oid cid ⟨true, none, oe⟩ hO (Or.inr rfl)]
        refine ⟨?_, Or.inl rfl, ?_⟩
        · intro r h
          obtain rfl := Except.ok.inj h
          exact goodResp_err _ _ (by simp)
        · intro r h hs
          obtain rfl := Except.ok.inj h
          simp [errResp] at hs
      | some od =>
        rcases od with ⟨order⟩
        by_cases h1 : order.customerId = cid
        · by_cases h2 : order.status = OrderStatus.READY
          · by_cases h3 : order.paymentMethod = PaymentMethod.PAY_ON_PICKUP
            · cases hP : env.getUserProfile cid with
              | error e =>
                rw [runGate_custThrow env oid cid order oe e hO h1 h2 h3 hP]
                refine ⟨?_, Or.inr (Or.inl rfl), ?_⟩
                · intro r h; simp at h
                · intro r h; simp at h
              | ok cres =>
                rcases cres with ⟨cs, cd, ce⟩
                cases cs with
                | false =>
                  rw [runGate_custMissing env oid cid order oe ⟨false, cd, ce⟩
                    hO h1 h2 h3 hP (Or.inl rfl)]
                  refine ⟨?_, Or.inr (Or.inl rfl), ?_⟩
                  · intro r h
                    obtain rfl := Except.ok.inj h
                    exact goodResp_err _ _ (by simp)
                  · intro r h hs
                    obtain rfl := Except.ok.inj h
                    simp [errResp] at hs
                | true =>
                  cases cd with
                  | none =>
                    rw [runGate_custMissing env oid cid order oe ⟨true, none, ce⟩
                      hO h1 h2 h3 hP (Or.inr rfl)]
                    refine ⟨?_, Or.inr (Or.inl rfl), ?_⟩
                    · intro r h
                      obtain rfl := Except.ok.inj h
                      exact goodResp_err _ _ (by simp)
                    · intro r h hs
                      obtain rfl := Except.ok.inj h
                      simp [errResp] at hs
                  | some customer =>
                    rw [runGate_customer env oid cid order oe ce customer hO h1 h2 h3 hP]
                    refine ⟨?_, Or.inr (Or.inr ⟨_, rfl⟩), ?_⟩
                    · intro r h
                      cases hI : env.initializePayment
                          (mkPaymentData env.appUrl oid cid order customer) with
                      | error e => rw [hI] at h; simp at h
                      | ok pr =>
                        rw [hI] at h
                        obtain rfl := Except.ok.inj h
                        exact payOutcome_good pr
                    · intro r h hs
                      exact ⟨_, rfl⟩
            · rw [runGate_wrongMethod env oid cid order oe hO h1 h2 h3]
              refine ⟨?_, Or.inl rfl, ?_⟩
              · intro r h
                obtain rfl := Except.ok.inj h
                exact goodResp_err _ _ (by simp)
              · intro r h hs
                obtain rfl := Except.ok.inj h
                simp [errResp] at hs
          · rw [runGate_notReady env oid cid order oe hO h1 h2]
            refine ⟨?_, Or.inl rfl, ?_⟩
            · intro r h
              obtain rfl := Except.ok.inj h
              exact goodResp_err _ _ (by simp)
            · intro r h hs
              obtain rfl := Except.ok.inj h
              simp [errResp] at hs
        · rw [runGate_unauthorized env oid cid order oe hO h1]
          refine ⟨?_, Or.inl rfl, ?_⟩
          · intro r h
            obtain rfl := Except.ok.inj h
            exact goodResp_err _ _ (by simp)
          · intro r h hs
            obtain rfl := Except.ok.inj h
            simp [errResp] at hs

/-- Lifting of the case analysis through the identifier validation: either no
collaborator call is made (and any returned response is a failure), or the
invocation behaves exactly as the gate for some pair of identifiers. -/
lemma POSTtry_shape (env : Env) (body : Except String RequestBody) :
    (∀ r, (POSTtry env body).1 = Except.ok r → goodResp r)
    ∧ (((POSTtry env body).2 = []
          ∧ ∀ r, (POSTtry env body).1 = Except.ok r → r.success = false)
        ∨ ∃ oid cid, POSTtry env body = runGate env oid cid) := by
  rcases body with e | b
  · constructor
    · intro r h; simp [POSTtry] at h
    · exact Or.inl ⟨rfl, fun r h => by simp [POSTtry] at h⟩
  · rcases b with ⟨o, c⟩
    cases o with
    | none =>
      constructor
      · intro r h
        obtain rfl := Except.ok.inj h
        exact goodResp_err _ _ (by simp)
      · refine Or.inl ⟨rfl, ?_⟩
        intro r h
        obtain rfl := Except.ok.inj h
        rfl
    | some oid =>
      cases c with
      | none =>
        constructor
        · intro r h
          obtain rfl := Except.ok.inj h
          exact goodResp_err _ _ (by simp)
        · refine Or.inl ⟨rfl, ?_⟩
          intro r h
          obtain rfl := Except.ok.inj h
          rfl
      | some cid =>
        by_cases hid : oid = "" ∨ cid = ""
        · have hPT : POSTtry env (Except.ok ⟨some oid, some cid⟩) =
              (Except.ok (errResp "Order ID and Customer ID are required" 400), []) := by
            unfold POSTtry
            simp only
            rw [if_pos hid]
          constructor
          · intro r h
            rw [hPT] at h
            obtain rfl := Except.ok.inj h
            exact goodResp_err _ _ (by simp)
          · refine Or.inl ⟨?_, ?_⟩
            · rw [hPT]
            · intro r h
              rw [hPT] at h
              obtain rfl := Except.ok.inj h
              rfl
        · have hPT := POSTtry_ok_ids env oid cid
            (fun hh => hid (Or.inl hh)) (fun hh => hid (Or.inr hh))
          constructor
          · intro r h
            rw [hPT] at h
            exact (runGate_shape env oid cid).1 r h
          · exact Or.inr ⟨oid, cid, hPT⟩

/-- Every response of the handler is well-formed. -/
lemma POST_good (env : Env) (body : Except String RequestBody) :
    goodResp (POST env body) := by
  unfold POST
  cases hT : (POSTtry env body).1 with
  | error e => exact goodResp_err _ _ (by simp)
  | ok r => exact (POSTtry_shape env body).1 r hT

/-- A thrown value inside the try block becomes the generic 500 response. -/
lemma POST_fault (env : Env) (body : Except String RequestBody) (e : String)
    (h : (POSTtry env body).1 = Except.error e) :
    POST env body = errResp "Internal server error" 500 := by
  unfold POST
  rw [h]

/-- A successful response implies the full three-call trace. -/
lemma POST_success_full (env : Env) (body : Except String RequestBody)
    (hs : (POST env body).success = true) :
    ∃ oid cid req, callTrace env body =
      [CallEvent.getOrder oid, CallEvent.getProfile cid, CallEvent.initPayment req] := by
  unfold POST at hs
  cases hT : (POSTtry env body).1 with
  | error e =>
    rw [hT] at hs
    simp [errResp] at hs
  | ok r =>
    rw [hT] at hs
    have hs2 : r.success = true := hs
    rcases (POSTtry_shape env body).2 with ⟨htr, hno⟩ | ⟨oid, cid, h⟩
    · have := hno r hT
      rw [this] at hs2
      exact absurd hs2 (by decide)
    · have h1 : (runGate env oid cid).1 = Except.ok r := by rw [← h]; exact hT
      obtain ⟨req, hreq⟩ := (runGate_shape env oid cid).2.2 r h1 hs2
      refine ⟨oid, cid, req, ?_⟩
      unfold callTrace
      rw [h]
      exact hreq

/-- A falsy orderId or customerId short-circuits before any collaborator call. -/
lemma POSTtry_malformed (env : Env) (o c : Option String)
    (h : o = none ∨ o = some "" ∨ c = none ∨ c = some "") :
    POSTtry env (Except.ok ⟨o, c⟩) =
      (Except.ok (errResp "Order ID and Customer ID are required" 400), []) := by
  rcases h with h | h | h | h <;> subst h
  · cases c <;> rfl
  · cases c with
    | none => rfl
    | some cc => simp [POSTtry]
  · cases o <;> rfl
  · cases o with
    | none => rfl
    | some oo => simp [POSTtry]

/-! The claims. -/

/-- C1: for a ready pay-on-pickup order owned by the requesting customer with
a resolvable profile, a successful initiation with a checkout URL yields the
200 success response carrying exactly the checkout URL and reference returned
by the initiator, and the initiation request sent has amount equal to the
final amount of the order and currency equal to the fixed code "NGN". -/
theorem C1_ready_payment_success (env : Env) (oid cid : String) (order : Order)
    (customer : CustomerProfile) (oerr cerr perr : Option String)
    (url : String) (refval : Option String)
    (hoid : oid ≠ "") (hcid : cid ≠ "")
    (horder : env.getOrderById oid =
      Except.ok { success := true, data := some { order := order }, error := oerr })
    (hown : order.customerId = cid)
    (hst : order.status = OrderStatus.READY)
    (hpm : order.paymentMethod = PaymentMethod.PAY_ON_PICKUP)
    (hcust : env.getUserProfile cid =
      Except.ok { success := true, data := some customer, error := cerr })
    (hpay : ∀ req, env.initializePayment req =
      Except.ok { success := true
                  data := some { authorizationUrl := some url, reference := refval }
                  error := perr })
    (hurl : url ≠ "") :
    POST env (Except.ok { orderId := some oid, customerId := some cid }) =
      { success := true, error := none
        data := some { authorizationUrl := url, reference := refval }
        status := 200 }
    ∧ ∃ req, CallEvent.initPayment req ∈
        callTrace env (Except.ok { orderId := some oid, customerId := some cid })
      ∧ req.amount = order.finalAmount ∧ req.currency = "NGN" := by
  have hgate := runGate_customer env oid cid order oerr cerr customer horder hown hst hpm hcust
  constructor
  · unfold POST
    rw [POSTtry_ok_ids env oid cid hoid hcid, hgate]
    simp only [hpay]
    rw [payOutcome_success _ ⟨some url, refval⟩ url rfl rfl rfl hurl]
  · refine ⟨mkPaymentData env.appUrl oid cid order customer, ?_, rfl, rfl⟩
    unfold callTrace
    rw [POSTtry_ok_ids env oid cid hoid hcid, hgate]
    simp

/-- C1 witness: the concrete scenario of the spec, evaluated. -/
theorem C1_ready_payment_success_witness :
    POST env1 (Except.ok { orderId := some "O1", customerId := some "C1" }) =
      { success := true, error := none
        data := some { authorizationUrl := "https://pay.example/x", reference := some "REF123" }
        status := 200 }
    ∧ ∃ req, CallEvent.initPayment req ∈
        callTrace env1 (Except.ok { orderId := some "O1", customerId := some "C1" })
      ∧ req.amount = order1.finalAmount ∧ req.currency = "NGN" :=
  C1_ready_payment_success env1 "O1" "C1" order1 cust1 none none none
    "https://pay.example/x" (some "REF123") (by decide) (by decide) rfl rfl rfl rfl rfl
    (fun _ => rfl) (by decide)

/-- C2: an order owned by a different customer is rejected as unauthorized
(403) regardless of its status and payment method: the ownership check comes
before the state checks. -/
theorem C2_unauthorized_precedence (env : Env) (oid cid : String) (order : Order)
    (oerr : Option String)
    (hoid : oid ≠ "") (hcid : cid ≠ "")
    (horder : env.getOrderById oid =
      Except.ok { success := true, data := some { order := order }, error := oerr })
    (hown : order.customerId ≠ cid) :
    POST env (Except.ok { orderId := some oid, customerId := some cid }) =
      errResp "Unauthorized access to order" 403 := by
  unfold POST
  rw [POSTtry_ok_ids env oid cid hoid hcid,
    runGate_unauthorized env oid cid order oerr horder hown]

/-- C2 witness: a pending, pay-online order owned by C2, requested by C1. -/
theorem C2_unauthorized_precedence_witness :
    POST envOther (Except.ok { orderId := some "O1", customerId := some "C1" }) =
      errResp "Unauthorized access to order" 403 :=
  C2_unauthorized_precedence envOther "O1" "C1" orderOther none
    (by decide) (by decide) rfl (by decide)

/-- C6: for an order owned by the requester, any status other than ready is
rejected as not-ready (400) regardless of payment method, and a ready order
with a method other than pay-on-pickup is rejected as wrong-method (400); the
status check precedes the method check. -/
theorem C6_invalid_state (env : Env) (oid cid : String) (order : Order)
    (oerr : Option String)
    (hoid : oid ≠ "") (hcid : cid ≠ "")
    (horder : env.getOrderById oid =
      Except.ok { success := true, data := some { order := order }, error := oerr })
    (hown : order.customerId = cid) :
    (order.status ≠ OrderStatus.READY →
      POST env (Except.ok { orderId := some oid, customerId := some cid }) =
        errResp "Order is not ready for pickup" 400)
    ∧ (order.status = OrderStatus.READY →
        order.paymentMethod ≠ PaymentMethod.PAY_ON_PICKUP →
      POST env (Except.ok { orderId := some oid, customerId := some cid }) =
        errResp "Order is not set for pay on pickup" 400) := by
  constructor
  · intro hst
    unfold POST
    rw [POSTtry_ok_ids env oid cid hoid hcid,
      runGate_notReady env oid cid order oerr horder hown hst]
  · intro hst hpm
    unfold POST
    rw [POSTtry_ok_ids env oid cid hoid hcid,
      runGate_wrongMethod env oid cid order oerr horder hown hst hpm]

/-- C6 witness: an in-progress order and a ready pay-online order, evaluated. -/
theorem C6_invalid_state_witness :
    POST envNotReady (Except.ok { orderId := some "O1", customerId := some "C1" }) =
      errResp "Order is not ready for pickup" 400
    ∧ POST envOnline (Except.ok { orderId := some "O1", customerId := some "C1" }) =
      errResp "Order is not set for pay on pickup" 400 :=
  ⟨(C6_invalid_state envNotReady "O1" "C1" orderNotReady none
      (by decide) (by decide) rfl rfl).1 (by decide),
   (C6_invalid_state envOnline "O1" "C1" orderOnline none
      (by decide) (by decide) rfl rfl).2 rfl (by decide)⟩

/-- C7: a request with a missing or empty orderId or customerId is rejected as
malformed (400) whatever the collaborators would answer, and no collaborator
call is made. -/
theorem C7_malformed_request (env : Env) (b : RequestBody)
    (h : b.orderId = none ∨ b.orderId = some ""
      ∨ b.customerId = none ∨ b.customerId = some "") :
    POST env (Except.ok b) = errResp "Order ID and Customer ID are required" 400
    ∧ callTrace env (Except.ok b) = [] := by
  rcases b with ⟨o, c⟩
  simp only at h
  have hPT := POSTtry_malformed env o c h
  constructor
  · unfold POST
    rw [hPT]
  · unfold callTrace
    rw [hPT]

/-- C7 witness: the request missing both identifiers, evaluated. -/
theorem C7_malformed_request_witness :
    POST env1 (Except.ok { orderId := none, customerId := none }) =
      errResp "Order ID and Customer ID are required" 400
    ∧ callTrace env1 (Except.ok { orderId := none, customerId := none }) = [] :=
  C7_malformed_request env1 { orderId := none, customerId := none } (Or.inl rfl)

/-- C8: for a ready pay-on-pickup order owned by the requester whose profile
cannot be resolved, the result is the dependency-not-found failure with the
fixed message "Customer not found" (status 404), and no payment initiation is
attempted. -/
theorem C8_dependency_not_found (env : Env) (oid cid : String) (order : Order)
    (oerr : Option String) (cres : ServiceResponse CustomerProfile)
    (hoid : oid ≠ "") (hcid : cid ≠ "")
    (horder : env.getOrderById oid =
      Except.ok { success := true, data := some { order := order }, error := oerr })
    (hown : order.customerId = cid)
    (hst : order.status = OrderStatus.READY)
    (hpm : order.paymentMethod = PaymentMethod.PAY_ON_PICKUP)
    (hcust : env.getUserProfile cid = Except.ok cres)
    (hfail : cres.success = false ∨ cres.data = none) :
    POST env (Except.ok { orderId := some oid, customerId := some cid }) =
      errResp "Customer not found" 404
    ∧ countInit (callTrace env (Except.ok { orderId := some oid, customerId := some cid })) = 0 := by
  have hg := runGate_custMissing env oid cid order oerr cres horder hown hst hpm hcust hfail
  constructor
  · unfold POST
    rw [POSTtry_ok_ids env oid cid hoid hcid, hg]
  · unfold callTrace
    rw [POSTtry_ok_ids env oid cid hoid hcid, hg]
    rfl

/-- C8 witness: the identity provider failing to resolve C1, evaluated. -/
theorem C8_dependency_not_found_witness :
    POST envNoCustomer (Except.ok { orderId := some "O1", customerId := some "C1" }) =
      errResp "Customer not found" 404
    ∧ countInit (callTrace envNoCustomer
        (Except.ok { orderId := some "O1", customerId := some "C1" })) = 0 :=
  C8_dependency_not_found envNoCustomer "O1" "C1" order1 none
    { success := false, data := none, error := none }
    (by decide) (by decide) rfl rfl rfl rfl rfl (Or.inl rfl)

/-- C5: when the flow reaches the payment initiation and the initiator reports
failure, or success with the checkout URL absent or empty, the result is the
payment failure (500), surfacing the message of the initiator when one is
available (the non-empty error field, else the fixed fallback message). -/
theorem C5_payment_failure (env : Env) (oid cid : String) (order : Order)
    (customer : CustomerProfile) (oerr cerr : Option String)
    (pres : ServiceResponse PaymentInitData)
    (hoid : oid ≠ "") (hcid : cid ≠ "")
    (horder : env.getOrderById oid =
      Except.ok { success := true, data := some { order := order }, error := oerr })
    (hown : order.customerId = cid)
    (hst : order.status = OrderStatus.READY)
    (hpm : order.paymentMethod = PaymentMethod.PAY_ON_PICKUP)
    (hcust : env.getUserProfile cid =
      Except.ok { success := true, data := some customer, error := cerr })
    (hpay : ∀ req, env.initializePayment req = Except.ok pres)
    (hfail : pres.success = false ∨ pres.data = none
      ∨ ∃ pd, pres.data = some pd
          ∧ (pd.authorizationUrl = none ∨ pd.authorizationUrl = some "")) :
    POST env (Except.ok { orderId := some oid, customerId := some cid }) =
      errResp (jsOr pres.error "Failed to initialize payment") 500 := by
  have hgate := runGate_customer env oid cid order oerr cerr customer horder hown hst hpm hcust
  unfold POST
  rw [POSTtry_ok_ids env oid cid hoid hcid, hgate]
  simp only [hpay]
  rw [payOutcome_fail pres hfail]

/-- C5 witness: initiator success without a checkout URL, evaluated. -/
theorem C5_payment_failure_witness :
    POST envPayNoUrl (Except.ok { orderId := some "O1", customerId := some "C1" }) =
      errResp (jsOr (some "gateway glitch") "Failed to initialize payment") 500 :=
  C5_payment_failure envPayNoUrl "O1" "C1" order1 cust1 none none
    { success := true
      data := some { authorizationUrl := none, reference := some "REF9" }
      error := some "gateway glitch" }
    (by decide) (by decide) rfl rfl rfl rfl rfl (fun _ => rfl)
    (Or.inr (Or.inr ⟨{ authorizationUrl := none, reference := some "REF9" }, rfl, Or.inl rfl⟩))

/-- C9: the phone value placed in the payment metadata is the normalization of
the profile phone, which equals the bare string when the phone is a string,
the number field when it is a structured value, and the empty string when
neither is present. -/
theorem C9_phone_normalization (env : Env) (oid cid : String) (order : Order)
    (customer : CustomerProfile) (oerr cerr : Option String)
    (hoid : oid ≠ "") (hcid : cid ≠ "")
    (horder : env.getOrderById oid =
      Except.ok { success := true, data := some { order := order }, error := oerr })
    (hown : order.customerId = cid)
    (hst : order.status = OrderStatus.READY)
    (hpm : order.paymentMethod = PaymentMethod.PAY_ON_PICKUP)
    (hcust : env.getUserProfile cid =
      Except.ok { success := true, data := some customer, error := cerr }) :
    (∀ req, CallEvent.initPayment req ∈
        callTrace env (Except.ok { orderId := some oid, customerId := some cid }) →
      req.metadata.phoneNumber = normalizePhone customer.phone)
    ∧ (∀ s, normalizePhone (Phone.str s) = s)
    ∧ (∀ n, normalizePhone (Phone.obj (some n)) = n)
    ∧ normalizePhone (Phone.obj none) = ""
    ∧ normalizePhone Phone.undef = "" := by
  have hgate := runGate_customer env oid cid order oerr cerr customer horder hown hst hpm hcust
  refine ⟨?_, fun s => rfl, ?_, rfl, rfl⟩
  · intro req hmem
    unfold callTrace at hmem
    rw [POSTtry_ok_ids env oid cid hoid hcid, hgate] at hmem
    simp only [List.mem_cons, List.mem_singleton] at hmem
    rcases hmem with h | h | h | h
    · exact absurd h (by simp)
    · exact absurd h (by simp)
    · obtain rfl := CallEvent.initPayment.inj h
      rfl
    · exact absurd h (by simp)
  · intro n
    unfold normalizePhone jsOr
    by_cases h : n = "" <;> simp [h]

/-- C9 witness: the happy-path scenario with a bare-string phone, evaluated. -/
theorem C9_phone_normalization_witness :
    (∀ req, CallEvent.initPayment req ∈
        callTrace env1 (Except.ok { orderId := some "O1", customerId := some "C1" }) →
      req.metadata.phoneNumber = normalizePhone cust1.phone)
    ∧ (∀ s, normalizePhone (Phone.str s) = s)
    ∧ (∀ n, normalizePhone (Phone.obj (some n)) = n)
    ∧ normalizePhone (Phone.obj none) = ""
    ∧ normalizePhone Phone.undef = "" :=
  C9_phone_normalization env1 "O1" "C1" order1 cust1 none none
    (by decide) (by decide) rfl rfl rfl rfl rfl

/-- C10: an unresolvable customer profile is reported with HTTP status 404,
the same code as an order that is not found; the two outcomes differ only in
the message, "Customer not found" against the message of the store or the
fallback "Order not found". -/
theorem C10_not_found_codes_collide (env : Env) (oid cid : String)
    (hoid : oid ≠ "") (hcid : cid ≠ "") :
    (∀ res : ServiceResponse OrderData, env.getOrderById oid = Except.ok res →
      res.success = false ∨ res.data = none →
      POST env (Except.ok { orderId := some oid, customerId := some cid }) =
        errResp (jsOr res.error "Order not found") 404)
    ∧ (∀ (order : Order) (oerr : Option String) (cres : ServiceResponse CustomerProfile),
      env.getOrderById oid =
        Except.ok { success := true, data := some { order := order }, error := oerr } →
      order.customerId = cid → order.status = OrderStatus.READY →
      order.paymentMethod = PaymentMethod.PAY_ON_PICKUP →
      env.getUserProfile cid = Except.ok cres →
      cres.success = false ∨ cres.data = none →
      POST env (Except.ok { orderId := some oid, customerId := some cid }) =
        errResp "Customer not found" 404) := by
  constructor
  · intro res hres hfail
    unfold POST
    rw [POSTtry_ok_ids env oid cid hoid hcid,
      runGate_orderMissing env oid cid res hres hfail]
  · intro order oerr cres horder hown hst hpm hcust hfail
    unfold POST
    rw [POSTtry_ok_ids env oid cid hoid hcid,
      runGate_custMissing env oid cid order oerr cres horder hown hst hpm hcust hfail]

/-- C10 witness: a failed order lookup with a store message, and an
unresolvable customer, both evaluated to 404 responses. -/
theorem C10_not_found_codes_collide_witness :
    POST envNoOrder (Except.ok { orderId := some "O1", customerId := some "C1" }) =
      errResp (jsOr (some "db offline") "Order not found") 404
    ∧ POST envNoCustomer (Except.ok { orderId := some "O1", customerId := some "C1" }) =
      errResp "Customer not found" 404 :=
  ⟨(C10_not_found_codes_collide envNoOrder "O1" "C1" (by decide) (by decide)).1
      { success := false, data := none, error := some "db offline" } rfl (Or.inl rfl),
   (C10_not_found_codes_collide envNoCustomer "O1" "C1" (by decide) (by decide)).2
      order1 none { success := false, data := none, error := none }
      rfl rfl rfl rfl rfl (Or.inl rfl)⟩

/-- C3: every invocation returns a tagged response and nothing is thrown past
the boundary; statuses are drawn from the specified transport codes, a thrown
value inside the try block becomes the generic 500 message, and each failure
category maps to its code: malformed request 400, order not found 404,
unauthorized 403, not-ready or wrong-method 400, payment failure 500. -/
theorem C3_error_taxonomy (env : Env) (body : Except String RequestBody) :
    ((POST env body).status = 200 ∨ (POST env body).status = 400
      ∨ (POST env body).status = 403 ∨ (POST env body).status = 404
      ∨ (POST env body).status = 500)
    ∧ ((POST env body).success = true →
        (POST env body).status = 200 ∧ (POST env body).error = none)
    ∧ ((POST env body).success = false →
        (∃ m, (POST env body).error = some m) ∧ (POST env body).status ≠ 200)
    ∧ (∀ e, (POSTtry env body).1 = Except.error e →
        POST env body = errResp "Internal server error" 500)
    ∧ (∀ b, body = Except.ok b →
        (b.orderId = none ∨ b.orderId = some ""
          ∨ b.customerId = none ∨ b.customerId = some "") →
        (POST env body).status = 400)
    ∧ (∀ oid cid res, body = Except.ok { orderId := some oid, customerId := some cid } →
        oid ≠ "" → cid ≠ "" → env.getOrderById oid = Except.ok res →
        (res.success = false ∨ res.data = none) →
        (POST env body).status = 404)
    ∧ (∀ oid cid order oerr,
        body = Except.ok { orderId := some oid, customerId := some cid } →
        oid ≠ "" → cid ≠ "" →
        env.getOrderById oid =
          Except.ok { success := true, data := some { order := order }, error := oerr } →
        order.customerId ≠ cid →
        (POST env body).status = 403)
    ∧ (∀ oid cid order oerr,
        body = Except.ok { orderId := some oid, customerId := some cid } →
        oid ≠ "" → cid ≠ "" →
        env.getOrderById oid =
          Except.ok { success := true, data := some { order := order }, error := oerr } →
        order.customerId = cid →
        (order.status ≠ OrderStatus.READY
          ∨ (order.status = OrderStatus.READY
              ∧ order.paymentMethod ≠ PaymentMethod.PAY_ON_PICKUP)) →
        (POST env body).status = 400)
    ∧ (∀ oid cid order oerr customer cerr pres,
        body = Except.ok { orderId := some oid, customerId := some cid } →
        oid ≠ "" → cid ≠ "" →
        env.getOrderById oid =
          Except.ok { success := true, data := some { order := order }, error := oerr } →
        order.customerId = cid → order.status = OrderStatus.READY →
        order.paymentMethod = PaymentMethod.PAY_ON_PICKUP →
        env.getUserProfile cid =
          Except.ok { success := true, data := some customer, error := cerr } →
        (∀ req, env.initializePayment req = Except.ok pres) →
        (pres.success = false ∨ pres.data = none
          ∨ ∃ pd, pres.data = some pd
              ∧ (pd.authorizationUrl = none ∨ pd.authorizationUrl = some "")) →
        (POST env body).status = 500) := by
  have hg := POST_good env body
  refine ⟨?_, ?_, ?_, ?_, ?_, ?_, ?_, ?_, ?_⟩
  · rcases hg with ⟨_, h200, _, _⟩ | ⟨_, _, _, hst⟩
    · exact Or.inl h200
    · rcases hst with h | h | h | h
      · exact Or.inr (Or.inl h)
      · exact Or.inr (Or.inr (Or.inl h))
      · exact Or.inr (Or.inr (Or.inr (Or.inl h)))
      · exact Or.inr (Or.inr (Or.inr (Or.inr h)))
  · intro hs
    rcases hg with ⟨_, h200, herr, _⟩ | ⟨hf, _, _, _⟩
    · exact ⟨h200, herr⟩
    · rw [hs] at hf
      exact absurd hf (by decide)
  · intro hs
    rcases hg with ⟨ht, _, _, _⟩ | ⟨_, _, hm, hst⟩
    · rw [hs] at ht
      exact absurd ht (by decide)
    · refine ⟨hm, ?_⟩
      rcases hst with h | h | h | h <;> rw [h] <;> decide
  · intro e he
    exact POST_fault env body e he
  · intro b hb h
    subst hb
    rcases b with ⟨o, c⟩
    simp only at h
    unfold POST
    rw [POSTtry_malformed env o c h]
    rfl
  · intro oid cid res hb hoid hcid hres hfail
    subst hb
    unfold POST
    rw [POSTtry_ok_ids env oid cid hoid hcid,
      runGate_orderMissing env oid cid res hres hfail]
    rfl
  · intro oid cid order oerr hb hoid hcid horder hown
    subst hb
    unfold POST
    rw [POSTtry_ok_ids env oid cid hoid hcid,
      runGate_unauthorized env oid cid order oerr horder hown]
    rfl
  · intro oid cid order oerr hb hoid hcid horder hown hstate
    subst hb
    unfold POST
    rcases hstate with hst | ⟨hst, hpm⟩
    · rw [POSTtry_ok_ids env oid cid hoid hcid,
        runGate_notReady env oid cid order oerr horder hown hst]
      rfl
    · rw [POSTtry_ok_ids env oid cid hoid hcid,
        runGate_wrongMethod env oid cid order oerr horder hown hst hpm]
      rfl
  · intro oid cid order oerr customer cerr pres hb hoid hcid horder hown hst hpm hcust hpay hfail
    subst hb
    unfold POST
    rw [POSTtry_ok_ids env oid cid hoid hcid,
      runGate_customer env oid cid order oerr cerr customer horder hown hst hpm hcust]
    simp only [hpay]
    rw [payOutcome_fail pres hfail]
    rfl

/-- C3 witness: the status of the happy-path response is in the code set, and
a throwing order lookup is converted to the generic 500 response. -/
theorem C3_error_taxonomy_witness :
    ((POST env1 bodyOk).status = 200 ∨ (POST env1 bodyOk).status = 400
      ∨ (POST env1 bodyOk).status = 403 ∨ (POST env1 bodyOk).status = 404
      ∨ (POST env1 bodyOk).status = 500)
    ∧ POST envThrows bodyOk = errResp "Internal server error" 500 :=
  ⟨(C3_error_taxonomy env1 bodyOk).1,
   (C3_error_taxonomy envThrows bodyOk).2.2.2.1 "boom" rfl⟩

/-- C4 counterexample: the claim says every invocation performs exactly one
payment-initiation call, but a malformed request performs none. -/
theorem C4_counterexample_zero_calls :
    countInit (callTrace env1 bodyMissing) ≠ 1 := by decide

/-- C4 (amended): each invocation calls each collaborator at most once (so no
retries), calls the payment initiator exactly once whenever it returns a
successful response, and never emits an order mutation or status transition;
the handler itself is a pure function of the injected collaborators. -/
theorem C4_frame_at_most_one (env : Env) (body : Except String RequestBody) :
    countInit (callTrace env body) ≤ 1
    ∧ countOrderCalls (callTrace env body) ≤ 1
    ∧ countProfileCalls (callTrace env body) ≤ 1
    ∧ countUpdates (callTrace env body) = 0
    ∧ ((POST env body).success = true → countInit (callTrace env body) = 1) := by
  have htr : callTrace env body = []
      ∨ ∃ oid cid, callTrace env body = (runGate env oid cid).2 := by
    rcases (POSTtry_shape env body).2 with ⟨h, _⟩ | ⟨oid, cid, h⟩
    · exact Or.inl h
    · refine Or.inr ⟨oid, cid, ?_⟩
      unfold callTrace
      rw [h]
  have hcounts : countInit (callTrace env body) ≤ 1
      ∧ countOrderCalls (callTrace env body) ≤ 1
      ∧ countProfileCalls (callTrace env body) ≤ 1
      ∧ countUpdates (callTrace env body) = 0 := by
    rcases htr with h | ⟨oid, cid, h⟩
    · rw [h]
      exact ⟨Nat.zero_le 1, Nat.zero_le 1, Nat.zero_le 1, rfl⟩
    · rw [h]
      rcases (runGate_shape env oid cid).2.1 with h2 | h2 | ⟨req, h2⟩
      · rw [h2]
        exact ⟨Nat.zero_le 1, Nat.le_refl 1, Nat.zero_le 1, rfl⟩
      · rw [h2]
        exact ⟨Nat.zero_le 1, Nat.le_refl 1, Nat.le_refl 1, rfl⟩
      · rw [h2]
        exact ⟨Nat.le_refl 1, Nat.le_refl 1, Nat.le_refl 1, rfl⟩
  refine ⟨hcounts.1, hcounts.2.1, hcounts.2.2.1, hcounts.2.2.2, ?_⟩
  intro hs
  obtain ⟨oid, cid, req, hfull⟩ := POST_success_full env body hs
  rw [hfull]
  rfl

/-- C4 witness: the happy-path invocation, evaluated: at most one initiation,
no mutation, and exactly one initiation since the response is successful. -/
theorem C4_frame_at_most_one_witness :
    countInit (callTrace env1 bodyOk) ≤ 1
    ∧ countUpdates (callTrace env1 bodyOk) = 0
    ∧ countInit (callTrace env1 bodyOk) = 1 :=
  ⟨(C4_frame_at_most_one env1 bodyOk).1,
   (C4_frame_at_most_one env1 bodyOk).2.2.2.1,
   (C4_frame_at_most_one env1 bodyOk).2.2.2.2 (by decide)⟩

end GabPayment
